/-
  Verification of the SEIRD simulation core of pandemic-outbreak-tracker.

  Shallow embedding of:
  - api/services/stats_utils.py        (class EpidemicStats)
  - api/services/simulation_service.py (class SimulationService)
  - api/routes/simulations.py          (class SimulationStore and the
    step/run endpoints)

  Conventions of the embedding:
  - Python ints are ℤ, Python floats are ℚ (the numerical claims checked
    here are branch/bound properties that do not depend on rounding).
  - numpy's `np.log` is passed in as an explicit function parameter
    `log : ℚ → ℚ`; every theorem below holds for an arbitrary such
    parameter, i.e. no property proved here depends on the value of the
    logarithm.
  - `random.random() < p` comparisons are modelled by explicit lists of
    drawn outcomes (`StepDraws`); the per-agent loops of the mock engine
    consume one outcome per agent.
  - Fallible code (list indexing `[-1]` on an empty list, division by a
    zero population) is modelled with `Except String`.
-/
import Mathlib

/-- Python `int()` applied to a nonnegative or negative rational:
truncation toward zero (`Int.div` of numerator by denominator). -/
def pytrunc (q : ℚ) : ℤ := q.num / (q.den : ℤ)

/-- `np.max` over a list of ints (callers below only apply it to
nonempty lists, matching numpy's precondition). -/
def npmax (l : List ℤ) : ℤ := l.foldl max (l.headD 0)

/-- `np.argmax` over a list of ints: index of the first occurrence of the
maximum. -/
def npargmax (l : List ℤ) : ℕ := l.findIdx (fun x => decide (npmax l ≤ x))

/-- Number of `true` outcomes in a list of Bernoulli draws (the
`if random.random() < p: counter += 1` loop pattern). -/
def countTrue (l : List Bool) : ℤ := ((l.filter id).length : ℤ)

/-! ## Data model (api/models/schemas.py) -/

/-- `SimulationConfigRequest` / `SimulationConfig`: the per-run parameter
record (api/models/schemas.py). Field names follow the source. -/
structure SimulationConfig where
  population_size : ℤ
  grid_size : ℚ
  initial_infected : ℤ
  infection_rate : ℚ
  incubation_mean : ℚ
  incubation_std : ℚ
  infectious_mean : ℚ
  infectious_std : ℚ
  mortality_rate : ℚ
  interaction_radius : ℚ
  vaccination_rate : ℚ
  detection_probability : ℚ
  isolation_compliance : ℚ
  home_attraction : ℚ
  random_movement : ℚ
  time_step : ℚ
deriving DecidableEq

/-- `SimulationStatistics`: the five SEIRD compartment time series
(api/models/schemas.py). -/
structure SimulationStatistics where
  susceptible : List ℤ
  exposed : List ℤ
  infected : List ℤ
  recovered : List ℤ
  deceased : List ℤ
  rt_history : Option (List ℚ)
deriving DecidableEq

/-- `EpidemicMetrics`: the derived metrics record
(api/models/schemas.py). -/
structure EpidemicMetrics where
  r0 : ℚ
  rt : ℚ
  attack_rate : ℚ
  case_fatality_rate : ℚ
  doubling_time : Option ℚ
  peak_infected : ℤ
  peak_day : ℤ
  outbreak_duration : ℤ
  current_infected : ℤ
  current_recovered : ℤ
  current_deceased : ℤ
  vaccination_coverage : ℚ
  growth_rate : ℚ
deriving DecidableEq

/-- `SimulationStatus` enum (api/models/schemas.py). -/
inductive SimulationStatus where
  | created
  | running
  | paused
  | completed
  | error
deriving DecidableEq

/-- `SimulationRunRequest` (api/models/schemas.py): `steps`/`days` are
optional, `stop_when_no_infected` defaults to true at the schema level. -/
structure SimulationRunRequest where
  steps : Option ℤ
  days : Option ℚ
  stop_when_no_infected : Bool
deriving DecidableEq

/-! ## api/services/stats_utils.py — class EpidemicStats -/

namespace EpidemicStats

/-- `DEFAULT_RT_WINDOW = 7` (days). -/
def DEFAULT_RT_WINDOW : ℚ := 7

/-- `MIN_CASES_FOR_STATS = 5`. -/
def MIN_CASES_FOR_STATS : ℤ := 5

/-- The window selection of `calculate_rt`:
`window_steps = max(int(window_days / time_step), 2)` and then
`infected_counts[-window_steps:] if len(infected_counts) >= window_steps
else infected_counts`. -/
def rtWindow (infected_counts : List ℤ) (time_step window_days : ℚ) : List ℤ :=
  let window_steps : ℤ := max (pytrunc (window_days / time_step)) 2
  if window_steps ≤ (infected_counts.length : ℤ) then
    infected_counts.drop (infected_counts.length - window_steps.toNat)
  else infected_counts

/-- `EpidemicStats.calculate_rt` (stats_utils.py lines 25-76).
`window_days = None` defaults to `DEFAULT_RT_WINDOW`. -/
def calculate_rt (log : ℚ → ℚ) (infected_counts : List ℤ)
    (infectious_period time_step : ℚ) (window_days : Option ℚ) : ℚ :=
  let wd := window_days.getD DEFAULT_RT_WINDOW
  if infected_counts.length < 2 then 0
  else
    let recent_infected := rtWindow infected_counts time_step wd
    if recent_infected.length < 2 ∨ recent_infected.headD 0 ≤ 0 then 0
    else
      let growth_factor : ℚ :=
        (recent_infected.getLastD 0 : ℚ) / (recent_infected.headD 0 : ℚ)
      let time_span : ℚ := ((recent_infected.length : ℚ) - 1) * time_step
      if 0 < time_span ∧ 0 < growth_factor then
        max 0 (1 + (log growth_factor / time_span) * infectious_period)
      else 1

/-- `EpidemicStats.estimate_r0` (stats_utils.py lines 78-126). -/
def estimate_r0 (log : ℚ → ℚ) (infected_counts : List ℤ)
    (infectious_period time_step : ℚ) (population : ℤ) : ℚ :=
  if infected_counts.length < 2 ∨ population = 0 then 0
  else
    let early_phase_end : ℤ :=
      max (min ((infected_counts.length : ℤ) / 10) (pytrunc (20 / time_step))) 5
    let early_infected := infected_counts.take early_phase_end.toNat
    let valid_indices := (List.range early_infected.length).filter
      (fun j => decide (MIN_CASES_FOR_STATS < early_infected.getD j 0))
    if valid_indices.length < 2 then 1
    else
      let i_start := early_infected.getD (valid_indices.headD 0) 0
      let i_end := early_infected.getD (valid_indices.getLastD 0) 0
      let time_diff : ℚ :=
        ((valid_indices.getLastD 0 : ℚ) - (valid_indices.headD 0 : ℚ)) * time_step
      if 0 < time_diff ∧ 0 < i_start then
        max (1/2) (min (1 + (log ((i_end : ℚ) / (i_start : ℚ)) / time_diff)
          * infectious_period) 10)
      else 1

/-- `EpidemicStats.calculate_doubling_time` (stats_utils.py lines 128-164).
The `for i in range(1, len)` loop with an early `return` inside is the
first `some` produced by `findSome?`; `np.where(arr[i:] >= threshold)[0]`
followed by `future_indices[0] + i` is the first absolute index `j ≥ i`
with `arr[j] ≥ threshold`. -/
def calculate_doubling_time (infected_counts : List ℤ) (time_step : ℚ) :
    Option ℚ :=
  if infected_counts.length < 2 then none
  else
    ((List.range infected_counts.length).drop 1).findSome? (fun i =>
      if infected_counts.getD (i-1) 0 < infected_counts.getD i 0 ∧
          MIN_CASES_FOR_STATS < infected_counts.getD (i-1) 0 then
        let baseline := infected_counts.getD i 0
        let doubling_threshold := 2 * baseline
        match ((List.range infected_counts.length).drop i).find?
            (fun j => decide (doubling_threshold ≤ infected_counts.getD j 0)) with
        | some doubling_index =>
          some (((doubling_index : ℚ) - (i : ℚ)) * time_step)
        | none => none
      else none)

/-- `EpidemicStats.calculate_attack_rate` (stats_utils.py lines 166-190):
note it is computed from susceptible counts and is clamped to [0,100]. -/
def calculate_attack_rate (susceptible_start susceptible_end deceased : ℤ) : ℚ :=
  if susceptible_start = 0 then 0
  else
    let total_infected := susceptible_start - susceptible_end
    let attack_rate : ℚ :=
      ((total_infected : ℚ) / (susceptible_start : ℚ)) * 100
    min 100 (max 0 attack_rate)

end EpidemicStats

/-! ## api/services/simulation_service.py — class SimulationService -/

namespace SimulationService

/-- `RT_WINDOW = 7` (class constant, days). -/
def RT_WINDOW : ℚ := 7

/-- `SimulationService.validate_simulation_config` (simulation_service.py
lines 34-98): the checks in source order, failing fast with the first
error message. -/
def validate_simulation_config (config : SimulationConfig) :
    Bool × Option String :=
  if ¬ (10 ≤ config.population_size ∧ config.population_size ≤ 10000) then
    (false, some "Population size must be between 10 and 10000")
  else if ¬ (20 ≤ config.grid_size ∧ config.grid_size ≤ 500) then
    (false, some "Grid size must be between 20 and 500")
  else if ¬ (0 ≤ config.infection_rate ∧ config.infection_rate ≤ 5) then
    (false, some "Infection rate (beta) must be between 0 and 5")
  else if config.incubation_mean ≤ 0 ∨ config.incubation_std < 0 then
    (false, some "Incubation period mean must be > 0 and std >= 0")
  else if config.infectious_mean ≤ 0 ∨ config.infectious_std < 0 then
    (false, some "Infectious period mean must be > 0 and std >= 0")
  else if ¬ (0 ≤ config.mortality_rate ∧ config.mortality_rate ≤ 1) then
    (false, some "Mortality rate must be between 0 and 1")
  else if ¬ (0 ≤ config.vaccination_rate ∧ config.vaccination_rate ≤ 1) then
    (false, some "Vaccination rate must be between 0 and 1")
  else if ¬ (0 ≤ config.detection_probability ∧ config.detection_probability ≤ 1) then
    (false, some "Detection probability must be between 0 and 1")
  else if ¬ (0 ≤ config.isolation_compliance ∧ config.isolation_compliance ≤ 1) then
    (false, some "Isolation compliance must be between 0 and 1")
  else if config.interaction_radius ≤ 0 then
    (false, some "Interaction radius must be > 0")
  else if ¬ (0 < config.time_step ∧ config.time_step ≤ 1) then
    (false, some "Time step must be between 0 and 1")
  else if config.home_attraction < 0 then
    (false, some "Home attraction must be >= 0")
  else if config.random_movement < 0 then
    (false, some "Random movement must be >= 0")
  else if 365 < config.incubation_mean + config.infectious_mean then
    (false, some "Total disease duration exceeds 1 year")
  else if config.population_size ≤ config.initial_infected then
    (false, some "Initial infected must be less than population size")
  else if ¬ (1 ≤ config.initial_infected ∧
      config.initial_infected < config.population_size) then
    (false, some "Initial infected must be at least 1 and less than population size")
  else (true, none)

/-- `SimulationService._estimate_r0` (simulation_service.py lines 245-284).
Unlike `EpidemicStats.estimate_r0` it caps the early window at a flat 20
samples, selects indices with count `> 0` (not `> 5`), and returns
`max(0, r0)` with no upper clamp and no 0.5 floor. -/
def _estimate_r0 (log : ℚ → ℚ) (infected_counts : List ℤ)
    (infectious_period dt : ℚ) (population : ℤ) : ℚ :=
  if infected_counts.length < 2 ∨ population = 0 then 0
  else
    let early_phase_end : ℤ := max (min ((infected_counts.length : ℤ) / 10) 20) 5
    let early_infected := infected_counts.take early_phase_end.toNat
    if 0 < npmax early_infected then
      let valid_indices := (List.range early_infected.length).filter
        (fun j => decide (0 < early_infected.getD j 0))
      if 2 ≤ valid_indices.length then
        let i_start := early_infected.getD (valid_indices.headD 0) 0
        let i_end := early_infected.getD (valid_indices.getLastD 0) 0
        let time_diff : ℚ :=
          ((valid_indices.getLastD 0 : ℚ) - (valid_indices.headD 0 : ℚ)) * dt
        if 0 < time_diff ∧ 0 < i_start then
          max 0 (1 + (log ((i_end : ℚ) / (i_start : ℚ)) / time_diff)
            * infectious_period)
        else 1
      else 1
    else 1

/-- `SimulationService._calculate_rt` (simulation_service.py lines
286-319). Unlike `EpidemicStats.calculate_rt`, when the window has at
least 2 points but starts at a non-positive value it falls through to
`return 1.0`, not 0.0. -/
def _calculate_rt (log : ℚ → ℚ) (infected_counts : List ℤ)
    (infectious_period dt : ℚ) : ℚ :=
  if infected_counts.length < 2 then 0
  else
    let window_size : ℤ := max (pytrunc (RT_WINDOW / dt)) 2
    let recent_infected :=
      if window_size ≤ (infected_counts.length : ℤ) then
        infected_counts.drop (infected_counts.length - window_size.toNat)
      else infected_counts
    if 2 ≤ recent_infected.length ∧ 0 < recent_infected.headD 0 then
      let growth_factor : ℚ :=
        (recent_infected.getLastD 0 : ℚ) / (recent_infected.headD 0 : ℚ)
      let time_span : ℚ := ((recent_infected.length : ℚ) - 1) * dt
      if 0 < time_span then
        max 0 (1 + (log growth_factor / time_span) * infectious_period)
      else 1
    else 1

/-- `SimulationService._calculate_doubling_time` (simulation_service.py
lines 321-349): `growth_indices = np.where(arr[i:] > arr[i])[0]`,
`endpoint = growth_indices[-1] + i`, and a return only when
`arr[endpoint] >= 2 * arr[i]`; otherwise the scan continues. -/
def _calculate_doubling_time (infected_counts : List ℤ) (dt : ℚ) : Option ℚ :=
  if infected_counts.length < 2 then none
  else
    ((List.range infected_counts.length).drop 1).findSome? (fun i =>
      if infected_counts.getD (i-1) 0 < infected_counts.getD i 0 ∧
          0 < infected_counts.getD (i-1) 0 then
        let growth_indices := (List.range (infected_counts.length - i)).filter
          (fun j => decide (infected_counts.getD i 0 < infected_counts.getD (i+j) 0))
        match growth_indices.getLast? with
        | some gl =>
          let endpoint := gl + i
          if 2 * infected_counts.getD i 0 ≤ infected_counts.getD endpoint 0 then
            some (((endpoint : ℚ) - (i : ℚ)) * dt)
          else none
        | none => none
      else none)

/-- The attack-rate expression of `calculate_epidemic_metrics`
(simulation_service.py lines 176-177):
`(total_infected / total_population) * 100 if total_population > 0 else 0`
— with no clamp to [0,100]. -/
def metrics_attack_rate (total_infected total_population : ℤ) : ℚ :=
  if 0 < total_population then
    ((total_infected : ℚ) / (total_population : ℚ)) * 100
  else 0

/-- `SimulationService.calculate_epidemic_metrics` (simulation_service.py
lines 153-243). A pure function of the statistics, the configuration and
the supplied logarithm routine: the source reads no module-level mutable
state and never consults the clock. `r_counts[-1]` / `d_counts[-1]` on an
empty list raise IndexError in Python, and the vaccination-coverage
branch divides by `total_population`; both failure modes are made
explicit with `Except.error`. -/
def calculate_epidemic_metrics (log : ℚ → ℚ)
    (statistics : SimulationStatistics) (config : SimulationConfig) :
    Except String EpidemicMetrics :=
  let i_counts := statistics.infected
  let r_counts := statistics.recovered
  let d_counts := statistics.deceased
  let total_population := config.population_size
  if r_counts.length = 0 ∨ d_counts.length = 0 then
    Except.error "IndexError"
  else
    let total_infected := r_counts.getLastD 0 + d_counts.getLastD 0
    let attack_rate := metrics_attack_rate total_infected total_population
    let case_fatality_rate : ℚ :=
      if 0 < total_infected then
        ((d_counts.getLastD 0 : ℚ) / (total_infected : ℚ)) * 100
      else 0
    let r0 := _estimate_r0 log i_counts config.infectious_mean
      config.time_step total_population
    let rt := _calculate_rt log i_counts config.infectious_mean config.time_step
    let doubling_time := _calculate_doubling_time i_counts config.time_step
    let peak_infected := if 0 < i_counts.length then npmax i_counts else 0
    let peak_day :=
      if 0 < i_counts.length then
        pytrunc ((npargmax i_counts : ℚ) * config.time_step)
      else 0
    let current_infected := if 0 < i_counts.length then i_counts.getLastD 0 else 0
    let current_recovered := if 0 < r_counts.length then r_counts.getLastD 0 else 0
    let current_deceased := if 0 < d_counts.length then d_counts.getLastD 0 else 0
    let infected_days : ℤ :=
      ((i_counts.filter (fun x => decide (0 < x))).length : ℤ)
    let outbreak_duration := pytrunc ((infected_days : ℚ) * config.time_step)
    if 0 < config.vaccination_rate ∧ total_population = 0 then
      Except.error "ZeroDivisionError"
    else
      let vaccination_coverage : ℚ :=
        if 0 < config.vaccination_rate then
          min (config.vaccination_rate * (outbreak_duration : ℚ)
              * (total_population : ℚ)) (total_population : ℚ)
            / (total_population : ℚ) * 100
        else 0
      let growth_rate : ℚ :=
        if 2 ≤ i_counts.length then
          let recent_infected :=
            if 7 ≤ i_counts.length then i_counts.drop (i_counts.length - 7)
            else i_counts
          if 1 < recent_infected.length then
            ((recent_infected.getLastD 0 : ℚ) - (recent_infected.headD 0 : ℚ)) /
              (if 0 < recent_infected.headD 0 then
                (recent_infected.headD 0 : ℚ) else 1)
          else 0
        else 0
      Except.ok
        { r0 := r0, rt := rt, attack_rate := attack_rate,
          case_fatality_rate := case_fatality_rate,
          doubling_time := doubling_time, peak_infected := peak_infected,
          peak_day := peak_day, outbreak_duration := outbreak_duration,
          current_infected := current_infected,
          current_recovered := current_recovered,
          current_deceased := current_deceased,
          vaccination_coverage := vaccination_coverage,
          growth_rate := growth_rate }

/-- `SimulationService.calculate_trend` (simulation_service.py lines
351-373): histories shorter than 2 entries are "stable"; otherwise the
mean of the last `min(3, len)` Rt values is compared against 1.1/0.9. -/
def calculate_trend (metrics_history : List EpidemicMetrics) : String :=
  if metrics_history.length < 2 then "stable"
  else
    let recent_rt := (metrics_history.drop (metrics_history.length - 3)).map
      (fun m => m.rt)
    let avg_recent : ℚ := recent_rt.sum / (recent_rt.length : ℚ)
    if 11/10 < avg_recent then "increasing"
    else if avg_recent < 9/10 then "decreasing"
    else "stable"

/-- The per-response output record built by
`transform_simulation_to_api_response` (simulation_service.py lines
375-417), restricted to the fields computed by the simulation core; the
GeoJSON agent dump and the `generated_at` wall-clock timestamp are
serialization concerns outside this embedding and independent of the
`trend` field. -/
structure SimulationOutput where
  simulation_id : String
  location_id : String
  location_name : String
  config : SimulationConfig
  statistics : SimulationStatistics
  metrics : EpidemicMetrics
  trend : String
deriving DecidableEq

/-- `SimulationService.transform_simulation_to_api_response`
(simulation_service.py lines 375-417): computes the metrics, then
`trend = self.calculate_trend([metrics])` — a one-element history. -/
def transform_simulation_to_api_response (log : ℚ → ℚ)
    (config : SimulationConfig) (statistics : SimulationStatistics)
    (simulation_id location_id location_name : String) :
    Except String SimulationOutput :=
  match calculate_epidemic_metrics log statistics config with
  | Except.error e => Except.error e
  | Except.ok metrics =>
    Except.ok
      { simulation_id := simulation_id, location_id := location_id,
        location_name := location_name, config := config,
        statistics := statistics, metrics := metrics,
        trend := calculate_trend [metrics] }

end SimulationService

/-! ## api/routes/simulations.py — SimulationStore and endpoints

The mock engine's `random.random() < p` comparisons are modelled by
explicit outcome lists: `run_step` consumes one Bool per susceptible
agent (new infection?), one Bool per exposed agent (E→I?), and one pair
of Bools per infected agent (transition out of I?, and if so: death?).
A list shorter than the compartment count stands for the remaining draws
all failing. The per-agent position/state bookkeeping of the mock (which
never feeds back into the compartment counts) and the wall-clock
`last_updated` timestamps are outside this embedding. -/

/-- One tick of randomness for `SimulationStore.run_step`. -/
structure StepDraws where
  infectionDraws : List Bool
  incubationDraws : List Bool
  removalDraws : List (Bool × Bool)
deriving DecidableEq

/-- The count-level state of one stored simulation
(`SimulationStore._simulations[sim_id]`): status, clock, and the five
compartment histories plus the Rt history, most recent entry last. -/
structure SimState where
  status : SimulationStatus
  current_day : ℚ
  total_steps : ℤ
  sHist : List ℤ
  eHist : List ℤ
  iHist : List ℤ
  rHist : List ℤ
  dHist : List ℤ
  rt_history : List ℚ
deriving DecidableEq

namespace SimulationStore

/-- `SimulationStore.create` (simulations.py lines 60-91): initial
snapshot S = population - initial_infected, E = 0, I = initial_infected,
R = 0, D = 0, status Created, tick 0. -/
def create (config : SimulationConfig) : SimState :=
  { status := SimulationStatus.created
    current_day := 0
    total_steps := 0
    sHist := [config.population_size - config.initial_infected]
    eHist := [0]
    iHist := [config.initial_infected]
    rHist := [0]
    dHist := [0]
    rt_history := [0] }

/-- The new compartment counts and Rt value computed by one call of
`SimulationStore.run_step`. -/
structure StepResult where
  new_s : ℤ
  new_e : ℤ
  new_i : ℤ
  new_r : ℤ
  new_d : ℤ
  rt : ℚ
deriving DecidableEq

/-- The population-conservation correction of `run_step` (simulations.py
lines 197-201): if the five new counts do not sum to `population_size`,
the susceptible count is recomputed as the difference. -/
def conserveCorrect (pop new_s new_e new_i new_r new_d : ℤ) : ℤ :=
  if new_s + new_e + new_i + new_r + new_d ≠ pop then
    pop - new_e - new_i - new_r - new_d
  else new_s

/-- The compartment-transition body of `SimulationStore.run_step`
(simulations.py lines 160-214), from the current counts and the drawn
outcomes to the appended counts and mock Rt value. -/
def stepResult (config : SimulationConfig) (draws : StepDraws)
    (current_s current_e current_i current_r current_d : ℤ) : StepResult :=
  let new_infections : ℤ :=
    if 0 < current_i ∧ 0 < current_s then
      countTrue (draws.infectionDraws.take current_s.toNat)
    else 0
  let e_to_i : ℤ :=
    if 0 < current_e then
      countTrue (draws.incubationDraws.take current_e.toNat)
    else 0
  let removals := draws.removalDraws.take current_i.toNat
  let i_to_r : ℤ :=
    if 0 < current_i then
      ((removals.filter (fun p => p.1 && !p.2)).length : ℤ)
    else 0
  let i_to_d : ℤ :=
    if 0 < current_i then
      ((removals.filter (fun p => p.1 && p.2)).length : ℤ)
    else 0
  let new_s := max 0 (current_s - new_infections)
  let new_e := max 0 (current_e + new_infections - e_to_i)
  let new_i := max 0 (current_i + e_to_i - i_to_r - i_to_d)
  let new_r := current_r + i_to_r
  let new_d := current_d + i_to_d
  let new_s := conserveCorrect config.population_size new_s new_e new_i new_r new_d
  let rt : ℚ :=
    if 0 < current_i then
      ((new_infections : ℚ) / config.time_step) / (current_i : ℚ)
        * config.infectious_mean
    else 0
  { new_s := new_s, new_e := new_e, new_i := new_i, new_r := new_r,
    new_d := new_d, rt := rt }

/-- `SimulationStore.run_step` (simulations.py lines 130-248) on a
present simulation: advance the clock, append the new counts and Rt,
set status Running, then Completed when infected and exposed are both
exhausted. -/
def run_step (config : SimulationConfig) (draws : StepDraws)
    (sim : SimState) : SimState :=
  let res := stepResult config draws (sim.sHist.getLastD 0)
    (sim.eHist.getLastD 0) (sim.iHist.getLastD 0) (sim.rHist.getLastD 0)
    (sim.dHist.getLastD 0)
  { status :=
      if res.new_i = 0 ∧ res.new_e = 0 then SimulationStatus.completed
      else SimulationStatus.running
    current_day := sim.current_day + config.time_step
    total_steps := sim.total_steps + 1
    sHist := sim.sHist ++ [res.new_s]
    eHist := sim.eHist ++ [res.new_e]
    iHist := sim.iHist ++ [res.new_i]
    rHist := sim.rHist ++ [res.new_r]
    dHist := sim.dHist ++ [res.new_d]
    rt_history := sim.rt_history ++ [res.rt] }

end SimulationStore

/-- Iterated `run_step`, one `StepDraws` per tick: the state after an
arbitrary sequence of step operations. -/
def stepped (config : SimulationConfig) (sim : SimState) :
    List StepDraws → SimState
  | [] => sim
  | d :: ds => stepped config (SimulationStore.run_step config d sim) ds

/-- The error outcomes of the step/run endpoints (HTTP 404 / HTTP 400 in
simulations.py). -/
inductive RunError where
  | notFound
  | alreadyCompleted
deriving DecidableEq

/-- Endpoint `run_simulation_step` (simulations.py lines 428-457): 404 if
the simulation is unknown, 400 if its status is Completed, otherwise one
`run_step`. -/
def run_simulation_step (config : SimulationConfig) (draws : StepDraws)
    (sim? : Option SimState) : Except RunError SimState :=
  match sim? with
  | none => Except.error RunError.notFound
  | some sim =>
    if sim.status = SimulationStatus.completed then
      Except.error RunError.alreadyCompleted
    else Except.ok (SimulationStore.run_step config draws sim)

/-- Python truthiness of `run_config.steps` (`if run_config.steps:`):
present and nonzero. -/
def truthyInt (o : Option ℤ) : Bool :=
  match o with
  | none => false
  | some n => decide (n ≠ 0)

/-- Python truthiness of `run_config.days`. -/
def truthyRat (o : Option ℚ) : Bool :=
  match o with
  | none => false
  | some q => decide (q ≠ 0)

/-- The `for _ in range(max_steps)` loop of endpoint `run_simulation`
(simulations.py lines 520-533), one `StepDraws` per iteration. The
returned Bool records whether any iteration invoked `run_step` on a
simulation whose status was already Completed (`run_step` itself never
checks the status). The in-loop `if not success: break` guard only
fires for a missing simulation and cannot trigger here. -/
def runLoop (config : SimulationConfig) (stop : Bool) :
    ℕ → List StepDraws → SimState → SimState × Bool
  | 0, _, sim => (sim, false)
  | n + 1, draws, sim =>
    let steppedCompleted : Bool := decide (sim.status = SimulationStatus.completed)
    let sim1 := SimulationStore.run_step config (draws.headD ⟨[], [], []⟩) sim
    if stop ∧ sim1.iHist.getLastD 0 = 0 ∧ sim1.eHist.getLastD 0 = 0 then
      (sim1, steppedCompleted)
    else
      let rest := runLoop config stop n draws.tail sim1
      (rest.1, steppedCompleted || rest.2)

/-- Endpoint `run_simulation` (simulations.py lines 471-535): 404 when
unknown, 400 when already Completed, otherwise resolve the requested
step budget (`steps`, else `int(days / dt)`, else `int(100.0 / dt)`;
the default request is `days=100.0, stop_when_no_infected=True`) and
iterate the loop. `range` of a negative budget runs zero iterations,
matching `Int.toNat`. -/
def run_simulation (config : SimulationConfig)
    (run_config? : Option SimulationRunRequest) (sim? : Option SimState)
    (draws : List StepDraws) : Except RunError (SimState × Bool) :=
  match sim? with
  | none => Except.error RunError.notFound
  | some sim =>
    if sim.status = SimulationStatus.completed then
      Except.error RunError.alreadyCompleted
    else
      let run_config := run_config?.getD ⟨none, some 100, true⟩
      let dt := config.time_step
      let max_steps : ℤ :=
        if truthyInt run_config.steps then run_config.steps.getD 0
        else if truthyRat run_config.days then
          pytrunc (run_config.days.getD 0 / dt)
        else pytrunc (100 / dt)
      Except.ok (runLoop config run_config.stop_when_no_infected
        max_steps.toNat draws sim)

/-- Projection: did a `run_simulation` call ever invoke `run_step` on a
Completed simulation? (`false` for rejected requests, which run no
steps at all.) -/
def steppedCompletedFlag (r : Except RunError (SimState × Bool)) : Bool :=
  match r with
  | Except.ok p => p.2
  | Except.error _ => false

/-! ## Concrete sample inputs used by witnesses and counterexamples -/

/-- A placeholder logarithm routine; every theorem below that mentions a
`log` parameter holds for arbitrary values, so witnesses may pick any. -/
def log0 : ℚ → ℚ := fun _ => 0

/-- A configuration accepted by the validator: population 10, one initial
infected, β = 1, and the schema defaults elsewhere. -/
def cfg0 : SimulationConfig :=
  { population_size := 10
    grid_size := 50
    initial_infected := 1
    infection_rate := 1
    incubation_mean := 5
    incubation_std := 2
    infectious_mean := 7
    infectious_std := 3
    mortality_rate := 1/50
    interaction_radius := 2
    vaccination_rate := 0
    detection_probability := 0
    isolation_compliance := 4/5
    home_attraction := 1/20
    random_movement := 1
    time_step := 1/2 }

/-- The exact configuration of the repository's own
`test_zero_infection_rate` (tests/test_simulation_integration.py):
`infection_rate=0.0`, `population_size=100`, `grid_size=50`,
`incubation_mean=5.0`, `infectious_mean=7.0`, all remaining fields at
their schema defaults. -/
def zeroBetaConfig : SimulationConfig :=
  { population_size := 100
    grid_size := 50
    initial_infected := 1
    infection_rate := 0
    incubation_mean := 5
    incubation_std := 2
    infectious_mean := 7
    infectious_std := 3
    mortality_rate := 1/50
    interaction_radius := 2
    vaccination_rate := 0
    detection_probability := 0
    isolation_compliance := 4/5
    home_attraction := 1/20
    random_movement := 1
    time_step := 1/2 }

/-- A tick in which every random comparison fails: nothing moves. -/
def noDraws : StepDraws := ⟨[], [], []⟩

/-- A tick in which the single infected agent recovers (transition drawn,
death not drawn) and no other comparison succeeds. -/
def dRemove : StepDraws := ⟨[], [], [(true, false)]⟩

/-- A one-entry statistics history: 9 susceptible, 1 infected. -/
def stats0 : SimulationStatistics :=
  { susceptible := [9], exposed := [0], infected := [1], recovered := [0],
    deceased := [0], rt_history := none }

/-- The metrics `calculate_epidemic_metrics` computes for `stats0` under
`cfg0` (used to state closed witnesses). -/
def demoMetrics : EpidemicMetrics :=
  { r0 := 0, rt := 0, attack_rate := 0, case_fatality_rate := 0,
    doubling_time := none, peak_infected := 1, peak_day := 0,
    outbreak_duration := 0, current_infected := 1, current_recovered := 0,
    current_deceased := 0, vaccination_coverage := 0, growth_rate := 0 }

/-- The output record `transform_simulation_to_api_response` produces for
`stats0` under `cfg0`. -/
def demoOut : SimulationService.SimulationOutput :=
  { simulation_id := "sim", location_id := "loc", location_name := "name",
    config := cfg0, statistics := stats0, metrics := demoMetrics,
    trend := "stable" }

/-- Conservation invariant over a stored simulation's histories: the five
compartment lists have equal length and every aligned 5-tuple of entries
— the tick-0 snapshot included — sums to the population size. -/
def ConservedHistories (pop : ℤ) (sim : SimState) : Prop :=
  sim.eHist.length = sim.sHist.length ∧
  sim.iHist.length = sim.sHist.length ∧
  sim.rHist.length = sim.sHist.length ∧
  sim.dHist.length = sim.sHist.length ∧
  ∀ k, k < sim.sHist.length →
    sim.sHist.getD k 0 + sim.eHist.getD k 0 + sim.iHist.getD k 0 +
      sim.rHist.getD k 0 + sim.dHist.getD k 0 = pop

/-- A simulation whose single infected agent has been removed: its status
is Completed (used to witness rejection of further steps). -/
def completedSim : SimState :=
  SimulationStore.run_step cfg0 dRemove (SimulationStore.create cfg0)

/-! ## Helper lemmas -/

theorem conserveCorrect_sum (pop s e i r d : ℤ) :
    SimulationStore.conserveCorrect pop s e i r d + e + i + r + d = pop := by
  unfold SimulationStore.conserveCorrect
  split_ifs with h
  · ring
  · omega

theorem stepResult_sum (config : SimulationConfig) (draws : StepDraws)
    (s e i r d : ℤ) :
    (SimulationStore.stepResult config draws s e i r d).new_s +
      (SimulationStore.stepResult config draws s e i r d).new_e +
      (SimulationStore.stepResult config draws s e i r d).new_i +
      (SimulationStore.stepResult config draws s e i r d).new_r +
      (SimulationStore.stepResult config draws s e i r d).new_d =
    config.population_size := by
  dsimp only [SimulationStore.stepResult]
  exact conserveCorrect_sum ..

theorem create_conserved (config : SimulationConfig) :
    ConservedHistories config.population_size (SimulationStore.create config) := by
  refine ⟨rfl, rfl, rfl, rfl, ?_⟩
  intro k hk
  dsimp only [SimulationStore.create] at hk ⊢
  have hk0 : k = 0 := Nat.lt_one_iff.mp (by simpa using hk)
  subst hk0
  norm_num

theorem run_step_preserves_conserved (config : SimulationConfig)
    (draws : StepDraws) (sim : SimState)
    (h : ConservedHistories config.population_size sim) :
    ConservedHistories config.population_size
      (SimulationStore.run_step config draws sim) := by
  obtain ⟨he, hi, hr, hd, hsum⟩ := h
  dsimp only [SimulationStore.run_step]
  refine ⟨by simp [he], by simp [hi], by simp [hr], by simp [hd], ?_⟩
  intro k hk
  simp only [List.length_append, List.length_singleton] at hk
  rcases Nat.lt_or_ge k sim.sHist.length with hlt | hge
  · rw [List.getD_append _ _ _ _ hlt, List.getD_append _ _ _ _ (he ▸ hlt),
      List.getD_append _ _ _ _ (hi ▸ hlt), List.getD_append _ _ _ _ (hr ▸ hlt),
      List.getD_append _ _ _ _ (hd ▸ hlt)]
    exact hsum k hlt
  · have hk' : k = sim.sHist.length := by omega
    subst hk'
    rw [List.getD_append_right _ _ _ _ (le_refl _),
      List.getD_append_right _ _ _ _ (le_of_eq he),
      List.getD_append_right _ _ _ _ (le_of_eq hi),
      List.getD_append_right _ _ _ _ (le_of_eq hr),
      List.getD_append_right _ _ _ _ (le_of_eq hd)]
    rw [he, hi, hr, hd]
    simp only [Nat.sub_self, List.getD_cons_zero]
    exact stepResult_sum config draws (sim.sHist.getLastD 0)
      (sim.eHist.getLastD 0) (sim.iHist.getLastD 0) (sim.rHist.getLastD 0)
      (sim.dHist.getLastD 0)

theorem run_step_status_completed_iff (config : SimulationConfig)
    (draws : StepDraws) (sim : SimState) :
    (SimulationStore.run_step config draws sim).status =
        SimulationStatus.completed ↔
      ((SimulationStore.run_step config draws sim).iHist.getLastD 0 = 0 ∧
       (SimulationStore.run_step config draws sim).eHist.getLastD 0 = 0) := by
  dsimp only [SimulationStore.run_step]
  rw [List.getLastD_concat, List.getLastD_concat]
  split_ifs with h
  · exact iff_of_true rfl h
  · exact iff_of_false (by decide) h

theorem runLoop_stop_never_completed (config : SimulationConfig) :
    ∀ (n : ℕ) (draws : List StepDraws) (sim : SimState),
      sim.status ≠ SimulationStatus.completed →
      (runLoop config true n draws sim).2 = false := by
  intro n
  induction n with
  | zero => intro draws sim _; rfl
  | succ n ih =>
    intro draws sim h
    dsimp only [runLoop]
    split_ifs with hbrk
    · simpa using h
    · have h1 : (SimulationStore.run_step config (draws.headD ⟨[], [], []⟩)
          sim).status ≠ SimulationStatus.completed := by
        intro hc
        rw [run_step_status_completed_iff] at hc
        exact hbrk ⟨rfl, hc.1, hc.2⟩
      have hdec : decide (sim.status = SimulationStatus.completed) = false :=
        decide_eq_false h
      dsimp only
      rw [hdec, Bool.false_or]
      exact ih draws.tail _ h1

theorem stepped_conserved (config : SimulationConfig) :
    ∀ (ds : List StepDraws) (sim : SimState),
      ConservedHistories config.population_size sim →
      ConservedHistories config.population_size (stepped config sim ds) := by
  intro ds
  induction ds with
  | nil => intro sim h; exact h
  | cons d ds ih =>
    intro sim h
    exact ih _ (run_step_preserves_conserved config d sim h)

/-! ## Claim theorems -/

/-- C1 (confirmed). Population conservation: for every simulation created
from a configuration accepted by the validator and every sequence of step
operations, the five compartment histories stay aligned and every entry —
the tick-0 initial snapshot included — satisfies
S(t)+E(t)+I(t)+R(t)+D(t) = population_size. (The `run_step` correction of
lines 197-201 makes this hold for arbitrary draw outcomes; validity of
the configuration is not even needed.) -/
theorem population_conservation (config : SimulationConfig)
    (ds : List StepDraws)
    (hvalid : (SimulationService.validate_simulation_config config).1 = true) :
    ConservedHistories config.population_size
      (stepped config (SimulationStore.create config) ds) :=
  stepped_conserved config ds _ (create_conserved config)

/-- Witness for C1 at the valid configuration `cfg0` and a one-step run. -/
theorem population_conservation_witness :
    (SimulationService.validate_simulation_config cfg0).1 = true ∧
    ConservedHistories cfg0.population_size
      (stepped cfg0 (SimulationStore.create cfg0) [dRemove]) :=
  ⟨by norm_num [SimulationService.validate_simulation_config, cfg0],
   population_conservation cfg0 [dRemove]
     (by norm_num [SimulationService.validate_simulation_config, cfg0])⟩

/-- C2 counterexample. The claim asserts that the Rt calculation returns
0.0 whenever the window's first value is 0 — and in particular on the
series [0,0,0,0] with infectious_mean 7 and dt 0.5. The Rt code of
`SimulationService._calculate_rt` (the one `calculate_epidemic_metrics`
invokes) returns 1.0 on exactly that input: its zero-start guard falls
through to `return 1.0` instead of returning 0.0. -/
theorem rt_zero_window_counterexample :
    SimulationService._calculate_rt log0 [0, 0, 0, 0] 7 (1/2) ≠ 0 := by
  norm_num [SimulationService._calculate_rt, SimulationService.RT_WINDOW, pytrunc]

/-- C2 (corrected). The zero-window sentinel as claimed holds of
`EpidemicStats.calculate_rt`: for every series, infectious period, time
step and window override, if the selected window has fewer than 2 points
or its first value is 0, the result is 0.0. -/
theorem calculate_rt_zero_window_sentinel (log : ℚ → ℚ) (l : List ℤ)
    (p t : ℚ) (w : Option ℚ)
    (h : (EpidemicStats.rtWindow l t
            (w.getD EpidemicStats.DEFAULT_RT_WINDOW)).length < 2 ∨
         (EpidemicStats.rtWindow l t
            (w.getD EpidemicStats.DEFAULT_RT_WINDOW)).headD 0 = 0) :
    EpidemicStats.calculate_rt log l p t w = 0 := by
  unfold EpidemicStats.calculate_rt
  dsimp only
  split_ifs with h1 h2 h3
  · rfl
  · rfl
  · exfalso
    rcases h with h | h
    · exact h2 (Or.inl h)
    · exact h2 (Or.inr (le_of_eq h))
  · exfalso
    rcases h with h | h
    · exact h2 (Or.inl h)
    · exact h2 (Or.inr (le_of_eq h))

/-- Witness for C2 at the spec's own instance: the window of [0,0,0,0]
(dt 0.5, default 7-day window) starts at 0 and
`calculate_rt([0,0,0,0], 7, 0.5) = 0.0`. -/
theorem calculate_rt_zero_window_sentinel_witness :
    (EpidemicStats.rtWindow [0, 0, 0, 0] (1/2)
        ((none : Option ℚ).getD EpidemicStats.DEFAULT_RT_WINDOW)).headD 0 = 0 ∧
    EpidemicStats.calculate_rt log0 [0, 0, 0, 0] 7 (1/2) none = 0 := by
  have hw : (EpidemicStats.rtWindow [0, 0, 0, 0] (1/2)
      ((none : Option ℚ).getD EpidemicStats.DEFAULT_RT_WINDOW)).headD 0 = 0 := by
    norm_num [EpidemicStats.rtWindow, EpidemicStats.DEFAULT_RT_WINDOW, pytrunc]
  exact ⟨hw, calculate_rt_zero_window_sentinel log0 [0, 0, 0, 0] 7 (1/2) none
    (Or.inr hw)⟩

/-- C3 (code_bug). The validator accepts β = 0: on the exact
configuration of the repository's failing test
`test_zero_infection_rate` (infection_rate 0, everything else valid) it
returns `(True, None)`, although the spec and the repository's own test
require a rejection. The β range check `0 <= infection_rate <= 5`
contains no strict positivity requirement. -/
theorem validator_accepts_zero_infection_rate :
    zeroBetaConfig.infection_rate = 0 ∧
    SimulationService.validate_simulation_config zeroBetaConfig =
      (true, none) := by
  constructor
  · rfl
  · norm_num [SimulationService.validate_simulation_config, zeroBetaConfig]

/-- C4 counterexample. With `stop_when_no_infected = false` the run loop
does invoke `run_step` on a Completed simulation: starting from the
freshly created `cfg0` simulation, a 3-step run whose first tick removes
the only infected agent marks the simulation Completed after step 1, yet
the loop keeps stepping it — the recorded stepped-while-Completed flag
is true, falsifying "never invokes a step on a simulation whose status
is Completed" for every run request. -/
theorem run_steps_completed_counterexample :
    steppedCompletedFlag (run_simulation cfg0
      (some { steps := some 3, days := none, stop_when_no_infected := false })
      (some (SimulationStore.create cfg0))
      [dRemove, noDraws, noDraws]) = true := by
  decide

/-- C4 (corrected). With `stop_when_no_infected = true` the run endpoint
never invokes `run_step` on a Completed simulation (the stop condition is
re-checked after every step and coincides with the completion
condition), and a run request on an already-Completed simulation is
rejected with the invalid-transition error before any step runs. -/
theorem run_respects_completed (config : SimulationConfig)
    (rc : SimulationRunRequest) (sim : SimState) (draws : List StepDraws) :
    (rc.stop_when_no_infected = true →
      sim.status ≠ SimulationStatus.completed →
      steppedCompletedFlag (run_simulation config (some rc) (some sim) draws)
        = false) ∧
    (sim.status = SimulationStatus.completed →
      run_simulation config (some rc) (some sim) draws =
        Except.error RunError.alreadyCompleted) := by
  constructor
  · intro hstop hsim
    dsimp only [run_simulation]
    rw [if_neg hsim]
    dsimp only [steppedCompletedFlag]
    simp only [Option.getD_some]
    rw [hstop]
    exact runLoop_stop_never_completed config _ _ _ hsim
  · intro hsim
    dsimp only [run_simulation]
    rw [if_pos hsim]

/-- Witness for C4: with the stop flag set the same 3-step run records no
step on a Completed simulation, and a run request on the completed
simulation `completedSim` is rejected. -/
theorem run_respects_completed_witness :
    steppedCompletedFlag (run_simulation cfg0
      (some { steps := some 3, days := none, stop_when_no_infected := true })
      (some (SimulationStore.create cfg0))
      [dRemove, noDraws, noDraws]) = false ∧
    run_simulation cfg0
      (some { steps := some 3, days := none, stop_when_no_infected := true })
      (some completedSim) [] =
      Except.error RunError.alreadyCompleted :=
  ⟨(run_respects_completed cfg0
      { steps := some 3, days := none, stop_when_no_infected := true }
      (SimulationStore.create cfg0) [dRemove, noDraws, noDraws]).1
      rfl (by decide),
   (run_respects_completed cfg0
      { steps := some 3, days := none, stop_when_no_infected := true }
      completedSim []).2 (by decide)⟩

/-- C5 counterexample. On the one-sample series [0] (with infectious
period 7, dt 0.5 and the valid population 10000),
`EpidemicStats.estimate_r0` returns the 0.0 sentinel, which violates the
claimed lower bound 0.5. -/
theorem r0_bound_counterexample :
    ¬ (1/2 ≤ EpidemicStats.estimate_r0 log0 [0] 7 (1/2) 10000) := by
  norm_num [EpidemicStats.estimate_r0]

/-- C5 (corrected). The R0 bound holds of `EpidemicStats.estimate_r0` for
every series with at least 2 samples and nonzero population (for every
logarithm value): the growth-phase branch is clamped by
`max(0.5, min(r0, 10.0))` and all other reachable branches return 1.0.
Series with fewer than 2 samples, or a zero population, return the 0.0
sentinel below the bound. -/
theorem estimate_r0_bounded (log : ℚ → ℚ) (l : List ℤ) (p t : ℚ) (pop : ℤ)
    (hlen : 2 ≤ l.length) (hpop : pop ≠ 0) :
    1/2 ≤ EpidemicStats.estimate_r0 log l p t pop ∧
      EpidemicStats.estimate_r0 log l p t pop ≤ 10 := by
  unfold EpidemicStats.estimate_r0
  dsimp only
  split_ifs with h1 h2 h3
  · exfalso
    rcases h1 with h1 | h1
    · omega
    · exact hpop h1
  · constructor <;> norm_num
  · exact ⟨le_max_left _ _, max_le (by norm_num) (min_le_right _ _)⟩
  · constructor <;> norm_num

/-- Witness for C5 at the two-sample series [0,0] and population 10. -/
theorem estimate_r0_bounded_witness :
    2 ≤ ([0, 0] : List ℤ).length ∧ (10 : ℤ) ≠ 0 ∧
    (1/2 ≤ EpidemicStats.estimate_r0 log0 [0, 0] 7 1 10 ∧
      EpidemicStats.estimate_r0 log0 [0, 0] 7 1 10 ≤ 10) :=
  ⟨by norm_num, by norm_num,
   estimate_r0_bounded log0 [0, 0] 7 1 10 (by norm_num) (by norm_num)⟩

/-- C6 counterexample. `calculate_doubling_time([10,12,15,20], dt=1.0)`
is `None`, not a positive value: the baseline of a growth pair
`arr[i-1] < arr[i]` is the larger element `arr[i]`, so the candidate
thresholds are 24, 30 and 40 — and the series never reaches any of them
(the claim's premise "the series reaches >= 20 within range" uses the
wrong baseline). -/
theorem doubling_time_counterexample :
    EpidemicStats.calculate_doubling_time [10, 12, 15, 20] 1 = none := by
  norm_num [EpidemicStats.calculate_doubling_time,
    EpidemicStats.MIN_CASES_FOR_STATS, List.range_succ]

/-- C6 (corrected). Doubling-time behaviour of
`EpidemicStats.calculate_doubling_time`: the flat series [10,10,10,10]
gives None; [10,12,15,20] also gives None because the doubling threshold
is twice the larger element of each increasing pair (24 for the pair
10<12) and is never reached; a series that does reach twice such a
baseline, e.g. [10,12,24], returns the positive
`(index_at_2x - index_at_baseline) * dt = 1.0`. -/
theorem doubling_time_examples :
    EpidemicStats.calculate_doubling_time [10, 10, 10, 10] 1 = none ∧
    EpidemicStats.calculate_doubling_time [10, 12, 15, 20] 1 = none ∧
    EpidemicStats.calculate_doubling_time [10, 12, 24] 1 = some 1 := by
  refine ⟨?_, ?_, ?_⟩ <;>
    norm_num [EpidemicStats.calculate_doubling_time,
      EpidemicStats.MIN_CASES_FOR_STATS, List.range_succ]

/-- C7 counterexample. The attack-rate expression of
`calculate_epidemic_metrics` is not clamped: at R_final = 200,
D_final = 0 and population_size = 10 it evaluates to 2000, far above
100, falsifying the claimed [0,100] bound "for every combination". -/
theorem attack_rate_counterexample :
    ¬ (SimulationService.metrics_attack_rate (200 + 0) 10 ≤ 100) := by
  norm_num [SimulationService.metrics_attack_rate]

/-- C7 (corrected). The bounds hold on the domain the simulation can
actually produce: whenever R_final and D_final are nonnegative and their
sum does not exceed population_size, the unclamped expression
`(R_final + D_final) / population_size * 100` lies in [0,100], and a
zero (or negative) population yields the 0.0 branch, also inside the
bounds. Outside that domain the expression exceeds 100 (see the
counterexample); the clamped variant lives in
`EpidemicStats.calculate_attack_rate`, which the service does not call. -/
theorem attack_rate_bounds (r d pop : ℤ) (hr : 0 ≤ r) (hd : 0 ≤ d)
    (hle : r + d ≤ pop) :
    0 ≤ SimulationService.metrics_attack_rate (r + d) pop ∧
      SimulationService.metrics_attack_rate (r + d) pop ≤ 100 := by
  unfold SimulationService.metrics_attack_rate
  split_ifs with h
  · have hpop : (0 : ℚ) < (pop : ℚ) := by exact_mod_cast h
    have hrd0 : (0 : ℚ) ≤ ((r + d : ℤ) : ℚ) := by
      have : (0 : ℤ) ≤ r + d := by omega
      exact_mod_cast this
    have hrdle : ((r + d : ℤ) : ℚ) ≤ (pop : ℚ) := by exact_mod_cast hle
    constructor
    · exact mul_nonneg (div_nonneg hrd0 hpop.le) (by norm_num)
    · have hq : ((r + d : ℤ) : ℚ) / (pop : ℚ) ≤ 1 := (div_le_one hpop).mpr hrdle
      have := mul_le_mul_of_nonneg_right hq (by norm_num : (0 : ℚ) ≤ 100)
      simpa using this
  · norm_num

/-- Witness for C7 at R_final = 2, D_final = 3, population_size = 10. -/
theorem attack_rate_bounds_witness :
    (0 : ℤ) ≤ 2 ∧ (0 : ℤ) ≤ 3 ∧ (2 + 3 : ℤ) ≤ 10 ∧
    (0 ≤ SimulationService.metrics_attack_rate (2 + 3) 10 ∧
      SimulationService.metrics_attack_rate (2 + 3) 10 ≤ 100) :=
  ⟨by norm_num, by norm_num, by norm_num,
   attack_rate_bounds 2 3 10 (by norm_num) (by norm_num) (by norm_num)⟩

/-- C8 (confirmed). Completion and step rejection: whenever a `run_step`
leaves both the infected and the exposed count at 0, the resulting
status is Completed; and a single-step request on a simulation whose
status is Completed fails with the explicit invalid-transition error
(HTTP 400) instead of stepping it. -/
theorem completion_and_step_rejection (config : SimulationConfig)
    (draws draws2 : StepDraws) (sim : SimState) :
    ((SimulationStore.run_step config draws sim).iHist.getLastD 0 = 0 →
     (SimulationStore.run_step config draws sim).eHist.getLastD 0 = 0 →
     (SimulationStore.run_step config draws sim).status =
       SimulationStatus.completed) ∧
    (sim.status = SimulationStatus.completed →
     run_simulation_step config draws2 (some sim) =
       Except.error RunError.alreadyCompleted) := by
  constructor
  · intro hi he
    exact (run_step_status_completed_iff config draws sim).mpr ⟨hi, he⟩
  · intro hsim
    dsimp only [run_simulation_step]
    rw [if_pos hsim]

/-- Witness for C8: stepping the fresh `cfg0` simulation with the draw
that removes its only infected agent leaves I = E = 0, the status is
Completed, and the subsequent step request is rejected. -/
theorem completion_and_step_rejection_witness :
    (SimulationStore.run_step cfg0 dRemove
        (SimulationStore.create cfg0)).status = SimulationStatus.completed ∧
    run_simulation_step cfg0 noDraws (some completedSim) =
      Except.error RunError.alreadyCompleted :=
  ⟨(completion_and_step_rejection cfg0 dRemove noDraws
      (SimulationStore.create cfg0)).1 (by decide) (by decide),
   (completion_and_step_rejection cfg0 noDraws noDraws completedSim).2
      (by decide)⟩

/-- C9 (confirmed). Metrics determinism: `calculate_epidemic_metrics` is
a pure function of the statistics history and the configuration (given
the logarithm routine) — its embedding takes exactly those inputs
because the source reads no module-level mutable state and never
consults the wall clock — so two calls with identical inputs return
identical `EpidemicMetrics` values. -/
theorem calculate_epidemic_metrics_deterministic (log : ℚ → ℚ)
    (stats1 stats2 : SimulationStatistics) (cfg1 cfg2 : SimulationConfig)
    (hstats : stats1 = stats2) (hcfg : cfg1 = cfg2) :
    SimulationService.calculate_epidemic_metrics log stats1 cfg1 =
      SimulationService.calculate_epidemic_metrics log stats2 cfg2 := by
  rw [hstats, hcfg]

/-- Witness for C9: two metric computations over the same stored history
`stats0` and configuration `cfg0` agree. -/
theorem calculate_epidemic_metrics_deterministic_witness :
    stats0 = stats0 ∧ cfg0 = cfg0 ∧
    SimulationService.calculate_epidemic_metrics log0 stats0 cfg0 =
      SimulationService.calculate_epidemic_metrics log0 stats0 cfg0 :=
  ⟨rfl, rfl,
   calculate_epidemic_metrics_deterministic log0 stats0 stats0 cfg0 cfg0
     rfl rfl⟩

/-- C10 (confirmed). Whenever
`transform_simulation_to_api_response` returns an output, its `trend`
field is "stable": the trend is computed from the one-element metrics
history `[metrics]`, and `calculate_trend` returns "stable" for every
history with fewer than 2 entries. -/
theorem transform_trend_always_stable (log : ℚ → ℚ)
    (config : SimulationConfig) (statistics : SimulationStatistics)
    (sid lid lname : String) (out : SimulationService.SimulationOutput)
    (h : SimulationService.transform_simulation_to_api_response log config
          statistics sid lid lname = Except.ok out) :
    out.trend = "stable" := by
  unfold SimulationService.transform_simulation_to_api_response at h
  cases hm : SimulationService.calculate_epidemic_metrics log statistics config with
  | error e => rw [hm] at h; exact absurd h (by simp)
  | ok m =>
    rw [hm] at h
    cases h
    rfl

/-- Witness for C10: the concrete transformation of `stats0` under `cfg0`
succeeds with output `demoOut`, whose trend is "stable". -/
theorem transform_trend_always_stable_witness :
    SimulationService.transform_simulation_to_api_response log0 cfg0 stats0
      "sim" "loc" "name" = Except.ok demoOut ∧
    demoOut.trend = "stable" := by
  have h : SimulationService.transform_simulation_to_api_response log0 cfg0
      stats0 "sim" "loc" "name" = Except.ok demoOut := by
    norm_num [SimulationService.transform_simulation_to_api_response,
      SimulationService.calculate_epidemic_metrics,
      SimulationService.metrics_attack_rate, SimulationService._estimate_r0,
      SimulationService._calculate_rt, SimulationService._calculate_doubling_time,
      SimulationService.RT_WINDOW, SimulationService.calculate_trend,
      stats0, cfg0, demoMetrics, demoOut, log0, pytrunc, npmax, npargmax,
      List.findIdx, List.findIdx.go]
  exact ⟨h, transform_trend_always_stable log0 cfg0 stats0 "sim" "loc" "name"
    demoOut h⟩
